import Mathlib

/-!
Verification of the Feed.fm Javascript SDK session/playback state machine
(src/src/speaker.js).  The Session and Player components are shallowly
embedded: each JS handler becomes a pure Lean function from the component
state to a new state plus the lists of emitted events, outgoing network
calls and scheduled timer delays.  Object identity used by the source for
correlation (ajax options objects, play objects) is modelled by value
equality on identifier-carrying structures.
-/

namespace Feed

/-- A server-issued play object.  Only the fields the session logic reads are
modelled: the play id, the optimistically-updated like state, and the
startPosition attached to a play saved by suspend (0 models the JS absent /
falsy value). -/
structure Play where
  id : Nat
  liked : Option Bool := none
  startPosition : Nat := 0
  deriving DecidableEq, Repr

/-- Session.config.current: binds one play to its server-acknowledgment
lifecycle, mirroring the record built in assignCurrentPlay. -/
structure CurrentPlayRecord where
  play : Play
  canSkip : Bool
  started : Bool
  retryCount : Nat
  deriving DecidableEq, Repr

/-- Session.config.pendingRequest: one in-flight POST /play exchange.  The
ajax options object kept by the source for identity comparison and verbatim
retry is modelled by a numeric identity token. -/
structure PendingRequest where
  ajaxId : Nat
  retryCount : Nat
  deriving DecidableEq, Repr

/-- The mutable protocol state held in Session.config.  Credential presence is
tracked as booleans; the placement/station info payloads are not needed by
any claim and are reduced to their ids. -/
structure SessionConfig where
  hasToken : Bool := true
  hasSecret : Bool := true
  placementId : Option Nat := none
  stationId : Option Nat := none
  current : Option CurrentPlayRecord := none
  pendingRequest : Option PendingRequest := none
  pendingPlay : Option Play := none
  deriving DecidableEq, Repr

/-- Events the session triggers on itself (consumed by Player / PlayerView). -/
inductive SEvent where
  | playCompleted (p : Play)
  | playActive (p : Play)
  | playStarted (p : Play)
  | playsExhausted
  | skipDenied
  | notInUs
  | placementChanged (pid : Nat)
  | stationChanged (sid : Nat)
  deriving DecidableEq, Repr

/-- Outgoing signed HTTP calls issued by the session, one per verb. -/
inductive NetCall where
  | placementRequest
  | playRequest (ajaxId : Nat)
  | startRequest (playId : Nat)
  | elapseRequest (playId : Nat) (seconds : Nat)
  | completeRequest (playId : Nat)
  | skipRequest (playId : Nat)
  | invalidateRequest (playId : Nat)
  | likeRequest (playId : Nat)
  | unlikeRequest (playId : Nat)
  | dislikeRequest (playId : Nat)
  deriving DecidableEq, Repr

/-- JS truthiness of the optional numeric delay argument (undefined or 0 are
falsy). -/
def jsTruthy : Option Nat → Bool
  | none => false
  | some d => d != 0

/-- The delay update in failedNextPlay: delay equals delay times 2 when the
previous delay is truthy, else 500. -/
def nextDelay (delay : Option Nat) : Nat :=
  match delay with
  | some d => if d == 0 then 500 else d * 2
  | none => 500

/-- Session.getActivePlay. -/
def getActivePlay (s : SessionConfig) : Option Play :=
  match s.current with
  | some c => some c.play
  | none => none

/-- Session.hasActivePlayStarted. -/
def hasActivePlayStarted (s : SessionConfig) : Bool :=
  match s.current with
  | some c => c.started
  | none => false

/-- Correlation guard used by the response handlers: the stored current play
object is the same object the response was bound to. -/
def currentMatches (s : SessionConfig) (play : Play) : Bool :=
  match s.current with
  | some c => c.play == play
  | none => false

/-- Correlation guard for next-play responses: the stored pendingRequest.ajax
object is the very object the response belongs to. -/
def pendingMatches (s : SessionConfig) (ajaxId : Nat) : Bool :=
  match s.pendingRequest with
  | some pr => pr.ajaxId == ajaxId
  | none => false

/-- Session.prototype.assignCurrentPlay: retire any existing current play
(emitting play-completed), then either install the new play (emitting
play-active) or, with no play, either wait quietly or announce
plays-exhausted. -/
def assignCurrentPlay (s : SessionConfig) (play : Option Play) (waitingIfEmpty : Bool) :
    SessionConfig × List SEvent :=
  let retired : SessionConfig × List SEvent :=
    match s.current with
    | some c => ({ s with current := none }, [SEvent.playCompleted c.play])
    | none => (s, [])
  match play with
  | none =>
    if waitingIfEmpty then
      (retired.1, retired.2)
    else
      (retired.1, retired.2 ++ [SEvent.playsExhausted])
  | some p =>
    ({ retired.1 with
        current := some { play := p, canSkip := false, started := false, retryCount := 0 } },
     retired.2 ++ [SEvent.playActive p])

/-- Session.prototype.requestNextPlay.  With a pending request and no truthy
delay the call is a no-op; with a delay above 60000 the retry is abandoned
(pending request cleared, and with nothing playing the session is driven to
the explicit no-play state); otherwise the stored request is retried.  With
no pending request a fresh one is created and sent. -/
def requestNextPlay (s : SessionConfig) (delay : Option Nat) (freshAjaxId : Nat) :
    SessionConfig × List SEvent × List NetCall :=
  match s.pendingRequest with
  | some pr =>
    if !jsTruthy delay then
      (s, [], [])
    else if 60000 < delay.getD 0 then
      let s1 : SessionConfig := { s with pendingRequest := none }
      if s1.current.isNone then
        let r := assignCurrentPlay s1 none false
        (r.1, r.2, [])
      else
        (s1, [], [])
    else
      ({ s with pendingRequest := some { pr with retryCount := pr.retryCount + 1 } },
       [], [NetCall.playRequest pr.ajaxId])
  | none =>
    ({ s with pendingRequest := some { ajaxId := freshAjaxId, retryCount := 0 } },
     [], [NetCall.playRequest freshAjaxId])

/-- Response payload of a POST /play exchange. -/
inductive PlayResponse where
  | success (play : Play)
  | failure (errorCode : Option Nat)
  deriving DecidableEq, Repr

/-- Session.prototype.receiveNextPlay: ignore stale responses, clear the
pending request, then queue the play as pendingPlay if something is already
current, else make it current; error code 9 means the station is exhausted. -/
def receiveNextPlay (s : SessionConfig) (ajaxId : Nat) (resp : PlayResponse) :
    SessionConfig × List SEvent :=
  if pendingMatches s ajaxId then
    let s1 : SessionConfig := { s with pendingRequest := none }
    match resp with
    | .success play =>
      match s1.current with
      | some _ => ({ s1 with pendingPlay := some play }, [])
      | none => assignCurrentPlay s1 (some play) false
    | .failure errorCode =>
      if errorCode == some 9 then
        match s1.current with
        | some _ => ({ s1 with pendingPlay := none }, [])
        | none => (s1, [SEvent.playsExhausted])
      else
        (s1, [])
  else
    (s, [])

/-- An HTTP failure as seen by the fail handlers: the status code and the
error code parsed out of the response body, when parsing succeeds. -/
structure FailResponse where
  status : Nat
  errorCode : Option Nat
  deriving DecidableEq, Repr

/-- Session.prototype.failedNextPlay: ignore stale failures; a 403 carrying
error code 19 surfaces not-in-us and stops; otherwise schedule a retry of
requestNextPlay after the doubled delay (the scheduled delay is returned). -/
def failedNextPlay (s : SessionConfig) (delay : Option Nat) (ajaxId : Nat) (resp : FailResponse) :
    SessionConfig × List SEvent × Option Nat :=
  if pendingMatches s ajaxId then
    if resp.status == 403 && resp.errorCode == some 19 then
      (s, [SEvent.notInUs], none)
    else
      (s, [], some (nextDelay delay))
  else
    (s, [], none)

/-- Response payload of a POST /play/id/start exchange. -/
structure StartResponse where
  success : Bool
  can_skip : Bool
  deriving DecidableEq, Repr

/-- Session.prototype.receiveStartPlay: on a successful response for the play
still current, record canSkip, mark the play started, trigger play-started
and immediately prefetch the next play. -/
def receiveStartPlay (s : SessionConfig) (play : Play) (resp : StartResponse) (freshAjaxId : Nat) :
    SessionConfig × List SEvent × List NetCall :=
  if resp.success then
    match s.current with
    | some c =>
      if c.play == play then
        let s1 : SessionConfig :=
          { s with current := some { c with canSkip := resp.can_skip, started := true } }
        let r := requestNextPlay s1 none freshAjaxId
        (r.1, SEvent.playStarted play :: r.2.1, r.2.2)
      else
        (s, [], [])
    | none => (s, [], [])
  else
    (s, [], [])

/-- Session.prototype.startPlay: once the retry budget is exhausted
(retryCount above 2) a successful, skippable start response is fabricated
locally; otherwise the start acknowledgment request is sent.  Reading
retryCount off a null current play is the error case. -/
def startPlay (s : SessionConfig) (play : Play) (freshAjaxId : Nat) :
    Except String (SessionConfig × List SEvent × List NetCall) :=
  match s.current with
  | none => .error "cannot read retryCount of null current play"
  | some c =>
    if 2 < c.retryCount then
      .ok (receiveStartPlay s play { success := true, can_skip := true } freshAjaxId)
    else
      .ok (s, [], [NetCall.startRequest play.id])

/-- Session.prototype.failStartPlay: ignore stale failures; a 403 carrying
error code 20 is treated as a missed success (start assumed good, song
skippable); otherwise bump retryCount and schedule startPlay again after a
fixed 1000 ms delay (the scheduled delay is returned). -/
def failStartPlay (s : SessionConfig) (play : Play) (resp : FailResponse) (freshAjaxId : Nat) :
    SessionConfig × List SEvent × List NetCall × Option Nat :=
  match s.current with
  | some c =>
    if c.play == play then
      if resp.status == 403 && resp.errorCode == some 20 then
        let r := receiveStartPlay s play { success := true, can_skip := true } freshAjaxId
        (r.1, r.2.1, r.2.2, none)
      else
        ({ s with current := some { c with retryCount := c.retryCount + 1 } }, [], [], some 1000)
    else
      (s, [], [], none)
  | none => (s, [], [], none)

/-- Session.prototype.reportPlayStarted: requires an active play, then runs
startPlay on it. -/
def reportPlayStarted (s : SessionConfig) (freshAjaxId : Nat) :
    Except String (SessionConfig × List SEvent × List NetCall) :=
  match s.current with
  | none => .error "attempt to report a play started, but there is no active play"
  | some c => startPlay s c.play freshAjaxId

/-- Session.prototype.reportPlayElapsed: requires an active play, then fires
the elapse ping with no retry and no state change. -/
def reportPlayElapsed (s : SessionConfig) (seconds : Nat) : Except String (List NetCall) :=
  match s.current with
  | none => .error "attempt to report elapsed play time, but the play has not started"
  | some c => .ok [NetCall.elapseRequest c.play.id seconds]

/-- Session.prototype.reportPlayCompleted: requires a started current play,
then fires the completion call whose response (success or failure alike) is
handled by receivePlayCompleted. -/
def reportPlayCompleted (s : SessionConfig) : Except String (List NetCall) :=
  match s.current with
  | some c =>
    if c.started then
      .ok [NetCall.completeRequest c.play.id]
    else
      .error "no active or playing song"
  | none => .error "no active or playing song"

/-- Session.prototype.receivePlayCompleted, bound with always so the response
success flag is received but never consulted: with no outstanding request the
pending play (possibly null) is promoted, else the current play is cleared
and the session waits for the outstanding request. -/
def receivePlayCompleted (s : SessionConfig) (_respSuccess : Bool) :
    SessionConfig × List SEvent :=
  if s.pendingRequest.isNone then
    let pendingPlay := s.pendingPlay
    assignCurrentPlay { s with pendingPlay := none } pendingPlay false
  else
    assignCurrentPlay s none true

/-- Session.prototype.requestSkip: requires an active started play; with
canSkip false, skip-denied is emitted and no network call is made; otherwise
the skip request is issued. -/
def requestSkip (s : SessionConfig) :
    Except String (SessionConfig × List SEvent × List NetCall) :=
  match s.current with
  | none => .error "No song being played"
  | some c =>
    if !c.started then
      .error "No song has been started"
    else if !c.canSkip then
      .ok (s, [SEvent.skipDenied], [])
    else
      .ok (s, [], [NetCall.skipRequest c.play.id])

/-- Session.prototype.receiveSkip: ignore stale responses; a non-success
response emits skip-denied and leaves everything unchanged; a success
promotes the queued pending play, else waits on the outstanding request,
else the session is out of music. -/
def receiveSkip (s : SessionConfig) (play : Play) (success : Bool) :
    SessionConfig × List SEvent :=
  if !currentMatches s play then
    (s, [])
  else if !success then
    (s, [SEvent.skipDenied])
  else
    match s.pendingPlay with
    | some pendingPlay =>
      assignCurrentPlay { s with pendingPlay := none } (some pendingPlay) false
    | none =>
      if s.pendingRequest.isSome then
        assignCurrentPlay s none true
      else
        assignCurrentPlay s none false

/-- Session.prototype.failSkip: ignore stale failures, else emit skip-denied
with the current play left unchanged. -/
def failSkip (s : SessionConfig) (play : Play) : SessionConfig × List SEvent :=
  if !currentMatches s play then
    (s, [])
  else
    (s, [SEvent.skipDenied])

/-- Session.prototype.requestInvalidate: requires an active play, then sends
the invalidate call for it. -/
def requestInvalidate (s : SessionConfig) : Except String (List NetCall) :=
  match s.current with
  | none => .error "No active song to invalidate!"
  | some c => .ok [NetCall.invalidateRequest c.play.id]

/-- Session.prototype.receiveInvalidate: ignore stale or unsuccessful
responses; else promote the queued pending play, or clear the current play,
wait, and request a new play when none is outstanding. -/
def receiveInvalidate (s : SessionConfig) (play : Play) (success : Bool) (freshAjaxId : Nat) :
    SessionConfig × List SEvent × List NetCall :=
  if !currentMatches s play then
    (s, [], [])
  else if !success then
    (s, [], [])
  else
    match s.pendingPlay with
    | some pendingPlay =>
      let r := assignCurrentPlay { s with pendingPlay := none } (some pendingPlay) false
      (r.1, r.2, [])
    | none =>
      let r := assignCurrentPlay s none true
      if r.1.pendingRequest.isNone then
        let q := requestNextPlay r.1 none freshAjaxId
        (q.1, r.2 ++ q.2.1, q.2.2)
      else
        (r.1, r.2, [])

/-- Session.prototype.failInvalidate: double the delay from a 200 ms base and
retry below 3000 ms, else give up (returning none). -/
def failInvalidate (delay : Option Nat) : Option Nat :=
  let d := match delay with
    | some d0 => if d0 == 0 then 200 else d0 * 2
    | none => 200
  if d < 3000 then some d else none

/-- Session.prototype.likePlay: fire the request and optimistically mark the
matching current play liked. -/
def likePlay (s : SessionConfig) (playId : Nat) : SessionConfig × List NetCall :=
  let s1 : SessionConfig :=
    match s.current with
    | some c =>
      if c.play.id == playId then
        { s with current := some { c with play := { c.play with liked := some true } } }
      else s
    | none => s
  (s1, [NetCall.likeRequest playId])

/-- Session.prototype.unlikePlay: fire the request and delete the liked flag
of the matching current play. -/
def unlikePlay (s : SessionConfig) (playId : Nat) : SessionConfig × List NetCall :=
  let s1 : SessionConfig :=
    match s.current with
    | some c =>
      if c.play.id == playId then
        { s with current := some { c with play := { c.play with liked := none } } }
      else s
    | none => s
  (s1, [NetCall.unlikeRequest playId])

/-- Session.prototype.dislikePlay: fire the request and optimistically mark
the matching current play not liked. -/
def dislikePlay (s : SessionConfig) (playId : Nat) : SessionConfig × List NetCall :=
  let s1 : SessionConfig :=
    match s.current with
    | some c =>
      if c.play.id == playId then
        { s with current := some { c with play := { c.play with liked := some false } } }
      else s
    | none => s
  (s1, [NetCall.dislikeRequest playId])

/-- Session.prototype.tune: requires credentials; aborts any pending request
and pending play, retires the current play into the waiting state, and kicks
off the placement fetch that will lead to a next-play request. -/
def tune (s : SessionConfig) : Except String (SessionConfig × List SEvent × List NetCall) :=
  if !s.hasToken then
    .error "no token set with setCredentials()"
  else if !s.hasSecret then
    .error "no secret set with setCredentials()"
  else
    let s1 : SessionConfig := { s with pendingRequest := none, pendingPlay := none }
    let r := assignCurrentPlay s1 none true
    .ok (r.1, r.2, [NetCall.placementRequest])

/-- The object handed out by Session.prototype.suspend: ids, the cloned play
carrying its startPosition, and its canSkip flag.  Fields the source leaves
undefined are modelled by none and false. -/
structure SavedState where
  placementId : Option Nat := none
  stationId : Option Nat := none
  play : Option Play := none
  canSkip : Bool := false
  deriving DecidableEq, Repr

/-- Session.prototype.suspend: save the ids, and when the current play has
started, a clone of it with the given startPosition plus its canSkip flag. -/
def suspend (s : SessionConfig) (startPosition : Nat) : SavedState :=
  let saved : SavedState := { placementId := s.placementId, stationId := s.stationId }
  match s.current with
  | some c =>
    if c.started then
      { saved with
          play := some { c.play with startPosition := startPosition },
          canSkip := c.canSkip }
    else
      saved
  | none => saved

/-- Session.prototype.unsuspend: refuses to run over an active play; restores
the ids; with a saved play it re-activates it via assignCurrentPlay and feeds
receiveStartPlay a fabricated successful start response carrying the saved
canSkip, and with no saved play it falls back to tune. -/
def unsuspend (s : SessionConfig) (saved : SavedState) (freshAjaxId : Nat) :
    Except String (SessionConfig × List SEvent × List NetCall) :=
  if (getActivePlay s).isSome then
    .error "You cannot unsuspend after running tune()"
  else
    let s1 : SessionConfig :=
      { s with
          placementId := match saved.placementId with
            | some pid => some pid
            | none => s.placementId,
          stationId := match saved.stationId with
            | some sid => some sid
            | none => s.stationId }
    let evs0 : List SEvent :=
      (match saved.placementId with
       | some pid => [SEvent.placementChanged pid]
       | none => []) ++
      (match saved.stationId with
       | some sid => [SEvent.stationChanged sid]
       | none => [])
    match saved.play with
    | some p =>
      let r := assignCurrentPlay s1 (some p) false
      let q := receiveStartPlay r.1 p { success := true, can_skip := saved.canSkip } freshAjaxId
      .ok (q.1, evs0 ++ r.2 ++ q.2.1, q.2.2)
    | none =>
      match tune s1 with
      | .ok t => .ok (t.1, evs0 ++ t.2.1, t.2.2)
      | .error e => .error e

/-! The Player component (feed/player in src/src/speaker.js). -/

/-- Player.state.activePlay: binds the session play id to a local sound. -/
structure ActivePlayBinding where
  id : Nat
  startReportedToServer : Bool
  soundCompleted : Bool
  soundCompletedWithError : Bool
  playStarted : Bool
  previousPosition : Nat
  deriving DecidableEq, Repr

/-- Player.state: the paused and suspended flags and the optional binding. -/
structure PlayerState where
  paused : Bool := true
  suspended : Bool := false
  activePlay : Option ActivePlayBinding := none
  deriving DecidableEq, Repr

/-- Commands the player issues against the speaker (audio engine).  The sound
created for a play is identified by the play id; the optional start position
is included iff the source passes one. -/
inductive SpeakerCall where
  | create (playId : Nat) (startPosition : Option Nat)
  | playSound (playId : Nat)
  | pauseSound (playId : Nat)
  | resumeSound (playId : Nat)
  | destroySound (playId : Nat)
  deriving DecidableEq, Repr

/-- Calls the player issues back into the session. -/
inductive SessionCall where
  | reportPlayStarted
  | reportPlayCompleted
  | requestInvalidate
  | reportPlayElapsed (seconds : Nat)
  | requestSkip
  deriving DecidableEq, Repr

/-- A session call issued by the player, either directly or deferred through
the JS defer primitive (run after the current handlers yield). -/
inductive PlayerAction where
  | immediate (c : SessionCall)
  | deferred (c : SessionCall)
  deriving DecidableEq, Repr

/-- Local notifications the player emits on its own. -/
inductive PEvent where
  | playPaused
  | playResumed
  deriving DecidableEq, Repr

/-- Player.prototype.onPlayActive: create a sound for the play (passing its
startPosition when truthy), install a fresh binding, and start playback
immediately when not paused. -/
def onPlayActive (st : PlayerState) (play : Play) : PlayerState × List SpeakerCall :=
  let startPos : Option Nat :=
    if play.startPosition != 0 then some play.startPosition else none
  let binding : ActivePlayBinding :=
    { id := play.id, startReportedToServer := false, soundCompleted := false,
      soundCompletedWithError := false, playStarted := false, previousPosition := 0 }
  let st1 : PlayerState := { st with activePlay := some binding }
  if !st1.paused then
    (st1, [SpeakerCall.create play.id startPos, SpeakerCall.playSound play.id])
  else
    (st1, [SpeakerCall.create play.id startPos])

/-- Player.prototype.onSoundPlay: on the first playback start, report the
start to the session; later play events are resume notifications. -/
def onSoundPlay (st : PlayerState) (playId : Nat) :
    PlayerState × List PlayerAction × List PEvent :=
  match st.activePlay with
  | some ap =>
    if ap.id == playId then
      let st1 : PlayerState :=
        { st with paused := false, activePlay := some { ap with playStarted := true } }
      if !ap.startReportedToServer then
        (st1, [PlayerAction.immediate SessionCall.reportPlayStarted], [])
      else
        (st1, [], [PEvent.playResumed])
    else
      (st, [], [])
  | none => (st, [], [])

/-- Player.prototype.onSoundPause: emit the local paused notification. -/
def onSoundPause (st : PlayerState) (playId : Nat) : PlayerState × List PEvent :=
  match st.activePlay with
  | some ap =>
    if ap.id == playId then
      ({ st with paused := true }, [PEvent.playPaused])
    else
      (st, [])
  | none => (st, [])

/-- Player.prototype.onSoundFinish: record completion (and the error flag);
invalidate a play that never started; defer judgment when the server has not
yet acknowledged the start; else invalidate on error or report completion. -/
def onSoundFinish (st : PlayerState) (playId : Nat) (withError : Bool) :
    PlayerState × List PlayerAction :=
  match st.activePlay with
  | some ap =>
    if ap.id == playId then
      let ap1 : ActivePlayBinding :=
        { ap with
            soundCompleted := true,
            soundCompletedWithError := ap.soundCompletedWithError || withError }
      let st1 : PlayerState := { st with activePlay := some ap1 }
      if !ap1.playStarted then
        (st1, [PlayerAction.immediate SessionCall.requestInvalidate])
      else if !ap1.startReportedToServer then
        (st1, [])
      else if withError then
        (st1, [PlayerAction.immediate SessionCall.requestInvalidate])
      else
        (st1, [PlayerAction.immediate SessionCall.reportPlayCompleted])
    else
      (st, [])
  | none => (st, [])

/-- Player.prototype.onSoundElapse, with the sound position passed in: record
the position, and report elapsed whole seconds exactly when a 30-second
boundary was crossed since the previous recorded position. -/
def onSoundElapse (st : PlayerState) (playId : Nat) (position : Nat) :
    PlayerState × List PlayerAction :=
  match st.activePlay with
  | some ap =>
    if ap.id == playId then
      let interval := 30 * 1000
      let previousCount := ap.previousPosition / interval
      let currentCount := position / interval
      let st1 : PlayerState :=
        { st with activePlay := some { ap with previousPosition := position } }
      if currentCount != previousCount then
        (st1, [PlayerAction.immediate (SessionCall.reportPlayElapsed (position / 1000))])
      else
        (st1, [])
    else
      (st, [])
  | none => (st, [])

/-- Player.prototype.onPlayStarted: mark the binding acknowledged; when the
sound already completed, defer the invalidation or completion so other
play-started observers run first. -/
def onPlayStarted (st : PlayerState) (playId : Nat) : PlayerState × List PlayerAction :=
  match st.activePlay with
  | some ap =>
    if ap.id == playId then
      let ap1 : ActivePlayBinding := { ap with startReportedToServer := true }
      let st1 : PlayerState := { st with activePlay := some ap1 }
      if ap1.soundCompleted then
        if ap1.soundCompletedWithError then
          (st1, [PlayerAction.deferred SessionCall.requestInvalidate])
        else
          (st1, [PlayerAction.deferred SessionCall.reportPlayCompleted])
      else
        (st1, [])
    else
      (st, [])
  | none => (st, [])

/-- Player.prototype.onPlayCompleted: destroy the sound, drop the binding and
force play mode. -/
def onPlayCompleted (st : PlayerState) (playId : Nat) : PlayerState × List SpeakerCall :=
  match st.activePlay with
  | some ap =>
    if ap.id == playId then
      ({ st with activePlay := none, paused := false }, [SpeakerCall.destroySound ap.id])
    else
      (st, [])
  | none => (st, [])

/-- Player.prototype.pause: a no-op returning normally unless a started,
unpaused play with a binding exists, in which case the sound is paused.  The
Except result type records that the source path never raises. -/
def playerPause (s : SessionConfig) (st : PlayerState) :
    Except String (PlayerState × List SpeakerCall) :=
  match st.activePlay with
  | some ap =>
    if !hasActivePlayStarted s || st.paused then
      .ok (st, [])
    else
      .ok (st, [SpeakerCall.pauseSound ap.id])
  | none => .ok (st, [])

/-! A step machine over the session: each input is one of the calls or
asynchronous completions that mutate the session state, and a run is a
sequence of such inputs from the initial configuration. -/

/-- One session-mutating input: a public call or an asynchronous completion
(network response, failure, or fired timer).  Fresh ajax identities are
carried by the inputs that may create a new pending request. -/
inductive SessionInput where
  | tuneCmd
  | nextPlayCmd (delay : Option Nat) (freshAjaxId : Nat)
  | nextPlayResponse (ajaxId : Nat) (resp : PlayResponse)
  | nextPlayFailure (delay : Option Nat) (ajaxId : Nat) (resp : FailResponse)
  | startCmd (freshAjaxId : Nat)
  | startPlayResponse (play : Play) (resp : StartResponse) (freshAjaxId : Nat)
  | startPlayFailure (play : Play) (resp : FailResponse) (freshAjaxId : Nat)
  | completeCmd
  | completedResponse (success : Bool)
  | skipCmd
  | skipResponse (play : Play) (success : Bool)
  | skipFailure (play : Play)
  | invalidateCmd
  | invalidateResponse (play : Play) (success : Bool) (freshAjaxId : Nat)
  | unsuspendCmd (saved : SavedState) (freshAjaxId : Nat)
  | likeCmd (playId : Nat)
  | unlikeCmd (playId : Nat)
  | dislikeCmd (playId : Nat)
  deriving DecidableEq, Repr

/-- Apply one input to the session, returning the new state and the events
triggered.  Calls that raise leave the state unchanged (the source throws
before mutating anything). -/
def stepSession (i : SessionInput) (s : SessionConfig) : SessionConfig × List SEvent :=
  match i with
  | .tuneCmd =>
    match tune s with
    | .ok r => (r.1, r.2.1)
    | .error _ => (s, [])
  | .nextPlayCmd delay fresh =>
    let r := requestNextPlay s delay fresh
    (r.1, r.2.1)
  | .nextPlayResponse a resp => receiveNextPlay s a resp
  | .nextPlayFailure delay a resp =>
    let r := failedNextPlay s delay a resp
    (r.1, r.2.1)
  | .startCmd fresh =>
    match reportPlayStarted s fresh with
    | .ok r => (r.1, r.2.1)
    | .error _ => (s, [])
  | .startPlayResponse play resp fresh =>
    let r := receiveStartPlay s play resp fresh
    (r.1, r.2.1)
  | .startPlayFailure play resp fresh =>
    let r := failStartPlay s play resp fresh
    (r.1, r.2.1)
  | .completeCmd => (s, [])
  | .completedResponse success => receivePlayCompleted s success
  | .skipCmd =>
    match requestSkip s with
    | .ok r => (r.1, r.2.1)
    | .error _ => (s, [])
  | .skipResponse play success => receiveSkip s play success
  | .skipFailure play => failSkip s play
  | .invalidateCmd => (s, [])
  | .invalidateResponse play success fresh =>
    let r := receiveInvalidate s play success fresh
    (r.1, r.2.1)
  | .unsuspendCmd saved fresh =>
    match unsuspend s saved fresh with
    | .ok r => (r.1, r.2.1)
    | .error _ => (s, [])
  | .likeCmd pid => ((likePlay s pid).1, [])
  | .unlikeCmd pid => ((unlikePlay s pid).1, [])
  | .dislikeCmd pid => ((dislikePlay s pid).1, [])

/-- Run a list of inputs, concatenating the triggered events. -/
def runSession : List SessionInput → SessionConfig → SessionConfig × List SEvent
  | [], s => (s, [])
  | i :: is, s =>
    let r := stepSession i s
    let q := runSession is r.1
    (q.1, r.2 ++ q.2)

/-- The configuration a fresh session starts from. -/
def initialSession : SessionConfig := {}

/-- Number of play-active events in a trace. -/
def countActive : List SEvent → Nat
  | [] => 0
  | SEvent.playActive _ :: rest => countActive rest + 1
  | _ :: rest => countActive rest

/-- Number of play-completed events in a trace. -/
def countCompleted : List SEvent → Nat
  | [] => 0
  | SEvent.playCompleted _ :: rest => countCompleted rest + 1
  | _ :: rest => countCompleted rest

/-- One when a current play record is held, zero otherwise. -/
def currentCount (s : SessionConfig) : Nat :=
  if s.current.isSome then 1 else 0

/-- A pending play was promoted between two states: it was queued before,
the queue slot is empty after, and it became the current play. -/
def promotedPendingPlay (s s1 : SessionConfig) : Prop :=
  ∃ p, s.pendingPlay = some p ∧ s1.pendingPlay = none ∧
    ∃ c1, s1.current = some c1 ∧ c1.play = p

/-- Simulation of a next-play request failing forever: each round the
outstanding request fails with a plain 500, failedNextPlay schedules a
retry delay, and the scheduled requestNextPlay call runs with it.  The run
stops when no further network call is issued and returns the final state,
the triggered events and the scheduled delays in order. -/
def failingRetryRun (ajaxId : Nat) : Nat → Option Nat → SessionConfig →
    SessionConfig × List SEvent × List Nat
  | 0, _, s => (s, [], [])
  | fuel + 1, delay, s =>
    let f := failedNextPlay s delay ajaxId { status := 500, errorCode := none }
    match f.2.2 with
    | none => (f.1, f.2.1, [])
    | some d =>
      let r := requestNextPlay f.1 (some d) ajaxId
      if r.2.2.isEmpty then
        (r.1, f.2.1 ++ r.2.1, [d])
      else
        let rest := failingRetryRun ajaxId fuel (some d) r.1
        (rest.1, f.2.1 ++ r.2.1 ++ rest.2.1, d :: rest.2.2)

/-- A session that has issued one next-play request (identity 7) and is
playing nothing, about to watch that request fail forever. -/
def retryScenarioStart : SessionConfig :=
  { pendingRequest := some { ajaxId := 7, retryCount := 0 } }

/-- The failing-forever run from retryScenarioStart with ample fuel. -/
def retryScenarioRun : SessionConfig × List SEvent × List Nat :=
  failingRetryRun 7 12 none retryScenarioStart

/-- Simulation of the start acknowledgment failing forever: each round
startPlay runs; if it emitted events the fabricated success ended the loop;
otherwise the issued start request fails with a plain 500 and failStartPlay
schedules the next startPlay.  Returns the final state, events, network
calls and the scheduled retry delays. -/
def startFailRun (play : Play) (fresh : Nat) : Nat → SessionConfig →
    SessionConfig × List SEvent × List NetCall × List Nat
  | 0, s => (s, [], [], [])
  | fuel + 1, s =>
    match startPlay s play fresh with
    | .error _ => (s, [], [], [])
    | .ok r =>
      if !r.2.1.isEmpty then
        (r.1, r.2.1, r.2.2, [])
      else
        let f := failStartPlay r.1 play { status := 500, errorCode := none } fresh
        match f.2.2.2 with
        | none => (f.1, r.2.1 ++ f.2.1, r.2.2 ++ f.2.2.1, [])
        | some d =>
          let rest := startFailRun play fresh fuel f.1
          (rest.1, r.2.1 ++ f.2.1 ++ rest.2.1,
           r.2.2 ++ f.2.2.1 ++ rest.2.2.1, d :: rest.2.2.2)

/-- The play used in the start-acknowledgment retry scenario. -/
def startScenarioPlay : Play := { id := 42 }

/-- A session holding startScenarioPlay as its active, not yet started play. -/
def startScenarioStart : SessionConfig :=
  { current := some { play := startScenarioPlay, canSkip := false, started := false,
                      retryCount := 0 } }

/-- The failing start-acknowledgment run from startScenarioStart. -/
def startScenarioRun : SessionConfig × List SEvent × List NetCall × List Nat :=
  startFailRun startScenarioPlay 9 8 startScenarioStart

/-- Drive a list of sound elapse events through the player, concatenating the
session calls issued. -/
def elapseFold (st : PlayerState) (playId : Nat) :
    List Nat → PlayerState × List PlayerAction
  | [] => (st, [])
  | pos :: rest =>
    let r := onSoundElapse st playId pos
    let q := elapseFold r.1 playId rest
    (q.1, r.2 ++ q.2)

/-- A player with a fresh binding for play id 5, driving the elapse scenario. -/
def elapseScenarioPlayer : PlayerState :=
  { paused := false,
    activePlay := some { id := 5, startReportedToServer := true, soundCompleted := false,
                         soundCompletedWithError := false, playStarted := true,
                         previousPosition := 0 } }

/-- C2: a next-play request failing forever is retried with delays 500, 1000,
2000, ... doubling each failure; the retry scheduled with delay 64000 (the
first above 60000) is abandoned: the pending request is cleared and, with no
current play, the session settles into the explicit no-play state (the
plays-exhausted trigger) instead of hanging. -/
theorem nextPlay_retry_backoff_cap :
    retryScenarioRun.2.2 = [500, 1000, 2000, 4000, 8000, 16000, 32000, 64000] ∧
    retryScenarioRun.1.pendingRequest = none ∧
    retryScenarioRun.1.current = none ∧
    retryScenarioRun.2.1 = [SEvent.playsExhausted] := by
  decide

/-- C5: a failing start acknowledgment is retried after a fixed 1000 ms delay;
exactly three network start requests go out (the initial attempt plus two
retries at retryCount 1 and 2); once retryCount exceeds 2 the session assumes
the start succeeded: the play is marked started, a play-started event is
emitted, and no further start request is sent. -/
theorem startPlay_retry_then_assume_success :
    startScenarioRun.2.2.2 = [1000, 1000, 1000] ∧
    startScenarioRun.2.2.1 =
      [NetCall.startRequest 42, NetCall.startRequest 42, NetCall.startRequest 42,
       NetCall.playRequest 9] ∧
    startScenarioRun.2.1 = [SEvent.playStarted startScenarioPlay] ∧
    startScenarioRun.1.current =
      some { play := startScenarioPlay, canSkip := true, started := true, retryCount := 3 } := by
  decide

/-- C7: the player reports elapsed seconds exactly when a 30-second boundary
is crossed between the previously recorded position and the new one, and
driving positions 0, 10000, 29999, 30000, 30001, 61000 ms produces exactly
the two reports at the 30000 and 60000 crossings. -/
theorem elapse_reports_on_boundary :
    (∀ (st : PlayerState) (ap : ActivePlayBinding) (position : Nat),
      st.activePlay = some ap →
      (((onSoundElapse st ap.id position).2 ≠ [] ↔
          position / 30000 ≠ ap.previousPosition / 30000) ∧
       (position / 30000 ≠ ap.previousPosition / 30000 →
          (onSoundElapse st ap.id position).2 =
            [PlayerAction.immediate (SessionCall.reportPlayElapsed (position / 1000))]))) ∧
    (elapseFold elapseScenarioPlayer 5 [0, 10000, 29999, 30000, 30001, 61000]).2 =
      [PlayerAction.immediate (SessionCall.reportPlayElapsed 30),
       PlayerAction.immediate (SessionCall.reportPlayElapsed 61)] := by
  constructor
  · intro st ap position hap
    simp only [onSoundElapse, hap, beq_self_eq_true, if_true]
    constructor
    · by_cases h : position / (30 * 1000) ≠ ap.previousPosition / (30 * 1000)
      · simp [h]
      · simp [h]
    · intro h
      simp [h]
  · decide

/-- Closed witness for the boundary characterization in C7. -/
theorem elapse_reports_on_boundary_witness :
    elapseScenarioPlayer.activePlay =
      some { id := 5, startReportedToServer := true, soundCompleted := false,
             soundCompletedWithError := false, playStarted := true, previousPosition := 0 } ∧
    ((onSoundElapse elapseScenarioPlayer 5 31000).2 ≠ [] ↔ 31000 / 30000 ≠ 0 / 30000) := by
  have h := elapse_reports_on_boundary.1 elapseScenarioPlayer
    { id := 5, startReportedToServer := true, soundCompleted := false,
      soundCompletedWithError := false, playStarted := true, previousPosition := 0 }
    31000 (by decide)
  exact ⟨by decide, h.1⟩

/-- C3: when the sound finishes while its local playback had started but the
server acknowledgment is still outstanding, the finish handler issues nothing;
processing the play-started event then issues exactly one session call,
deferred, classified as invalidation exactly when the finish carried the
error flag. -/
theorem finish_before_ack_defers_single_completion :
    ∀ (st : PlayerState) (ap : ActivePlayBinding) (withError : Bool),
      st.activePlay = some ap →
      ap.playStarted = true →
      ap.startReportedToServer = false →
      ap.soundCompleted = false →
      ap.soundCompletedWithError = false →
      (onSoundFinish st ap.id withError).2 = [] ∧
      (onPlayStarted (onSoundFinish st ap.id withError).1 ap.id).2 =
        [PlayerAction.deferred
          (if withError then SessionCall.requestInvalidate
           else SessionCall.reportPlayCompleted)] := by
  intro st ap withError hap hps hsr hsc hsce
  cases withError <;>
    simp [onSoundFinish, onPlayStarted, hap, hps, hsr, hsc, hsce]

/-- A player whose sound has started playing locally while the start
acknowledgment from the server is still outstanding. -/
def raceScenarioPlayer : PlayerState :=
  { paused := false,
    activePlay := some { id := 6, startReportedToServer := false, soundCompleted := false,
                         soundCompletedWithError := false, playStarted := true,
                         previousPosition := 0 } }

/-- The binding held by raceScenarioPlayer. -/
def raceScenarioBinding : ActivePlayBinding :=
  { id := 6, startReportedToServer := false, soundCompleted := false,
    soundCompletedWithError := false, playStarted := true, previousPosition := 0 }

/-- Closed witness for C3: the race on a concrete binding, in both the error
and the non-error flavor. -/
theorem finish_before_ack_defers_single_completion_witness :
    ((onSoundFinish raceScenarioPlayer 6 false).2 = [] ∧
     (onPlayStarted (onSoundFinish raceScenarioPlayer 6 false).1 6).2 =
       [PlayerAction.deferred SessionCall.reportPlayCompleted]) ∧
    ((onSoundFinish raceScenarioPlayer 6 true).2 = [] ∧
     (onPlayStarted (onSoundFinish raceScenarioPlayer 6 true).1 6).2 =
       [PlayerAction.deferred SessionCall.requestInvalidate]) := by
  have h1 := finish_before_ack_defers_single_completion raceScenarioPlayer
    raceScenarioBinding false rfl rfl rfl rfl rfl
  have h2 := finish_before_ack_defers_single_completion raceScenarioPlayer
    raceScenarioBinding true rfl rfl rfl rfl rfl
  exact ⟨h1, h2⟩

/-- C4: requestSkip on an active started play with canSkip false emits
skip-denied with no network call and no state change; with canSkip true it
only issues the skip call; a successful skip response promotes the queued
pending play (else waits on the outstanding request, else goes idle with
plays-exhausted); a non-success response or a transport failure emits
skip-denied and leaves the session state, current play included, unchanged. -/
theorem skip_denial_and_promotion :
    (∀ (s : SessionConfig) (c : CurrentPlayRecord),
      s.current = some c → c.started = true → c.canSkip = false →
      requestSkip s = .ok (s, [SEvent.skipDenied], [])) ∧
    (∀ (s : SessionConfig) (c : CurrentPlayRecord),
      s.current = some c → c.started = true → c.canSkip = true →
      requestSkip s = .ok (s, [], [NetCall.skipRequest c.play.id])) ∧
    (∀ (s : SessionConfig) (c : CurrentPlayRecord) (q : Play),
      s.current = some c → s.pendingPlay = some q →
      receiveSkip s c.play true =
        ({ s with pendingPlay := none,
                  current := some { play := q, canSkip := false, started := false,
                                    retryCount := 0 } },
         [SEvent.playCompleted c.play, SEvent.playActive q])) ∧
    (∀ (s : SessionConfig) (c : CurrentPlayRecord) (pr : PendingRequest),
      s.current = some c → s.pendingPlay = none → s.pendingRequest = some pr →
      receiveSkip s c.play true =
        ({ s with current := none }, [SEvent.playCompleted c.play])) ∧
    (∀ (s : SessionConfig) (c : CurrentPlayRecord),
      s.current = some c → s.pendingPlay = none → s.pendingRequest = none →
      receiveSkip s c.play true =
        ({ s with current := none }, [SEvent.playCompleted c.play, SEvent.playsExhausted])) ∧
    (∀ (s : SessionConfig) (c : CurrentPlayRecord),
      s.current = some c →
      receiveSkip s c.play false = (s, [SEvent.skipDenied])) ∧
    (∀ (s : SessionConfig) (c : CurrentPlayRecord),
      s.current = some c →
      failSkip s c.play = (s, [SEvent.skipDenied])) := by
  refine ⟨?_, ?_, ?_, ?_, ?_, ?_, ?_⟩
  · intro s c hc hst hcs
    simp [requestSkip, hc, hst, hcs]
  · intro s c hc hst hcs
    simp [requestSkip, hc, hst, hcs]
  · intro s c q hc hq
    simp [receiveSkip, currentMatches, hc, hq, assignCurrentPlay]
  · intro s c pr hc hq hpr
    simp [receiveSkip, currentMatches, hc, hq, hpr, assignCurrentPlay]
  · intro s c hc hq hpr
    simp [receiveSkip, currentMatches, hc, hq, hpr, assignCurrentPlay]
  · intro s c hc
    simp [receiveSkip, currentMatches, hc]
  · intro s c hc
    simp [failSkip, currentMatches, hc]

/-- A session with a started, skippable current play (id 10) and a queued
pending play (id 11). -/
def skipScenarioSession : SessionConfig :=
  { current := some { play := { id := 10 }, canSkip := true, started := true, retryCount := 0 },
    pendingPlay := some { id := 11 } }

/-- Closed witness for C4 on skipScenarioSession: the skip call goes out
when canSkip holds, the successful response promotes the pending play, and
the failed response leaves the state unchanged with skip-denied. -/
theorem skip_denial_and_promotion_witness :
    requestSkip skipScenarioSession =
      .ok (skipScenarioSession, [], [NetCall.skipRequest 10]) ∧
    receiveSkip skipScenarioSession { id := 10 } true =
      ({ skipScenarioSession with
          pendingPlay := none,
          current := some { play := { id := 11 }, canSkip := false, started := false,
                            retryCount := 0 } },
       [SEvent.playCompleted { id := 10 }, SEvent.playActive { id := 11 }]) ∧
    receiveSkip skipScenarioSession { id := 10 } false =
      (skipScenarioSession, [SEvent.skipDenied]) := by
  refine ⟨?_, ?_, ?_⟩
  · exact skip_denial_and_promotion.2.1 skipScenarioSession
      { play := { id := 10 }, canSkip := true, started := true, retryCount := 0 } rfl rfl rfl
  · exact skip_denial_and_promotion.2.2.1 skipScenarioSession
      { play := { id := 10 }, canSkip := true, started := true, retryCount := 0 }
      { id := 11 } rfl rfl
  · exact skip_denial_and_promotion.2.2.2.2.2.1 skipScenarioSession
      { play := { id := 10 }, canSkip := true, started := true, retryCount := 0 } rfl

/-- C6: reportPlayCompleted raises unless the current play has started, and
its response handler, bound with always so success and failure are treated
alike, advances the session: it promotes the queued pending play (when no
request is outstanding), else clears the current play and waits on the
outstanding request, else clears the current play and announces
plays-exhausted. -/
theorem completion_requires_started_then_advances :
    (∀ (s : SessionConfig), hasActivePlayStarted s = false →
      reportPlayCompleted s = .error "no active or playing song") ∧
    (∀ (s : SessionConfig) (c : CurrentPlayRecord),
      s.current = some c → c.started = true →
      reportPlayCompleted s = .ok [NetCall.completeRequest c.play.id]) ∧
    (∀ (s : SessionConfig) (r1 r2 : Bool),
      receivePlayCompleted s r1 = receivePlayCompleted s r2) ∧
    (∀ (s : SessionConfig) (c : CurrentPlayRecord) (q : Play) (r : Bool),
      s.current = some c → s.pendingPlay = some q → s.pendingRequest = none →
      receivePlayCompleted s r =
        ({ s with pendingPlay := none,
                  current := some { play := q, canSkip := false, started := false,
                                    retryCount := 0 } },
         [SEvent.playCompleted c.play, SEvent.playActive q])) ∧
    (∀ (s : SessionConfig) (c : CurrentPlayRecord) (pr : PendingRequest) (r : Bool),
      s.current = some c → s.pendingRequest = some pr →
      receivePlayCompleted s r = ({ s with current := none }, [SEvent.playCompleted c.play])) ∧
    (∀ (s : SessionConfig) (c : CurrentPlayRecord) (r : Bool),
      s.current = some c → s.pendingPlay = none → s.pendingRequest = none →
      receivePlayCompleted s r =
        ({ s with current := none }, [SEvent.playCompleted c.play, SEvent.playsExhausted])) := by
  refine ⟨?_, ?_, ?_, ?_, ?_, ?_⟩
  · intro s hns
    unfold reportPlayCompleted
    unfold hasActivePlayStarted at hns
    cases hc : s.current with
    | none => simp
    | some c => simp [hc] at hns; simp [hns]
  · intro s c hc hst
    simp [reportPlayCompleted, hc, hst]
  · intro s r1 r2
    rfl
  · intro s c q r hc hq hpr
    simp [receivePlayCompleted, hpr, hq, assignCurrentPlay, hc]
  · intro s c pr r hc hpr
    simp [receivePlayCompleted, hpr, assignCurrentPlay, hc]
  · intro s c r hc hq hpr
    simp [receivePlayCompleted, hpr, hq, assignCurrentPlay, hc]

/-- A session whose current play (id 12) has started, with a queued pending
play (id 13) and no outstanding request. -/
def completeScenarioSession : SessionConfig :=
  { current := some { play := { id := 12 }, canSkip := false, started := true, retryCount := 0 },
    pendingPlay := some { id := 13 } }

/-- Closed witness for C6 on completeScenarioSession and on a fresh session:
the not-started error, the completion call, and the promotion on failure
responses just like on success. -/
theorem completion_requires_started_then_advances_witness :
    reportPlayCompleted initialSession = .error "no active or playing song" ∧
    reportPlayCompleted completeScenarioSession = .ok [NetCall.completeRequest 12] ∧
    receivePlayCompleted completeScenarioSession false =
      ({ completeScenarioSession with
          pendingPlay := none,
          current := some { play := { id := 13 }, canSkip := false, started := false,
                            retryCount := 0 } },
       [SEvent.playCompleted { id := 12 }, SEvent.playActive { id := 13 }]) := by
  refine ⟨?_, ?_, ?_⟩
  · exact completion_requires_started_then_advances.1 initialSession rfl
  · exact completion_requires_started_then_advances.2.1 completeScenarioSession
      { play := { id := 12 }, canSkip := false, started := true, retryCount := 0 } rfl rfl
  · exact completion_requires_started_then_advances.2.2.2.1 completeScenarioSession
      { play := { id := 12 }, canSkip := false, started := true, retryCount := 0 }
      { id := 13 } false rfl rfl rfl

/-- A session playing nothing, paired with a player holding no binding. -/
def noPlaySession : SessionConfig := {}

/-- A player holding no active play binding. -/
def noPlayPlayer : PlayerState := {}

/-- Counterexample to C9 as stated: calling pause with no active play does
not raise; it returns normally having issued no speaker command at all. -/
theorem pause_without_play_returns_silently :
    playerPause noPlaySession noPlayPlayer = .ok (noPlayPlayer, []) := by
  rfl

/-- C9 amended: reporting elapsed time when nothing is playing raises
immediately, while calling pause with no active play binding is silently
ignored: it returns normally and issues no command. -/
theorem elapsed_raises_pause_silent :
    (∀ (s : SessionConfig) (seconds : Nat), s.current = none →
      reportPlayElapsed s seconds =
        .error "attempt to report elapsed play time, but the play has not started") ∧
    (∀ (s : SessionConfig) (st : PlayerState), st.activePlay = none →
      playerPause s st = .ok (st, [])) := by
  constructor
  · intro s seconds hc
    simp [reportPlayElapsed, hc]
  · intro s st hap
    simp [playerPause, hap]

/-- Closed witness for the amended C9 at the empty session and player. -/
theorem elapsed_raises_pause_silent_witness :
    reportPlayElapsed noPlaySession 30 =
      .error "attempt to report elapsed play time, but the play has not started" ∧
    playerPause noPlaySession noPlayPlayer = .ok (noPlayPlayer, []) := by
  exact ⟨elapsed_raises_pause_silent.1 noPlaySession 30 rfl,
         elapsed_raises_pause_silent.2 noPlaySession noPlayPlayer rfl⟩

/-- C10: exhausting the start-acknowledgment retry budget (retryCount above
2), or receiving a 403 carrying error code 20, makes the session fabricate a
successful response with can_skip true: the current play is marked started
and skippable regardless of any server skip policy, the play-started event
fires, and no further start request goes out. -/
theorem fabricated_start_marks_skippable :
    (∀ (s : SessionConfig) (c : CurrentPlayRecord) (fresh : Nat),
      s.current = some c → 2 < c.retryCount →
      startPlay s c.play fresh =
        .ok (receiveStartPlay s c.play { success := true, can_skip := true } fresh) ∧
      (receiveStartPlay s c.play { success := true, can_skip := true } fresh).1.current =
        some { c with canSkip := true, started := true } ∧
      SEvent.playStarted c.play ∈
        (receiveStartPlay s c.play { success := true, can_skip := true } fresh).2.1 ∧
      (∀ pid, NetCall.startRequest pid ∉
        (receiveStartPlay s c.play { success := true, can_skip := true } fresh).2.2)) ∧
    (∀ (s : SessionConfig) (c : CurrentPlayRecord) (fresh : Nat),
      s.current = some c →
      (failStartPlay s c.play { status := 403, errorCode := some 20 } fresh).1.current =
        some { c with canSkip := true, started := true } ∧
      SEvent.playStarted c.play ∈
        (failStartPlay s c.play { status := 403, errorCode := some 20 } fresh).2.1) := by
  constructor
  · intro s c fresh hc hrc
    have hrun : (receiveStartPlay s c.play { success := true, can_skip := true } fresh).1.current =
        some { c with canSkip := true, started := true } ∧
        SEvent.playStarted c.play ∈
          (receiveStartPlay s c.play { success := true, can_skip := true } fresh).2.1 ∧
        (∀ pid, NetCall.startRequest pid ∉
          (receiveStartPlay s c.play { success := true, can_skip := true } fresh).2.2) := by
      unfold receiveStartPlay requestNextPlay
      cases hpr : s.pendingRequest <;> simp [hc, hpr, jsTruthy]
    refine ⟨?_, hrun⟩
    simp [startPlay, hc, hrc]
  · intro s c fresh hc
    unfold failStartPlay
    simp only [hc, beq_self_eq_true, if_true]
    unfold receiveStartPlay requestNextPlay
    cases hpr : s.pendingRequest <;> simp [hc, hpr, jsTruthy]

/-- A session whose current play (id 14) has exhausted its start retry
budget. -/
def exhaustedRetrySession : SessionConfig :=
  { current := some { play := { id := 14 }, canSkip := false, started := false,
                      retryCount := 3 } }

/-- Closed witness for C10 on exhaustedRetrySession and on the 403 code-20
path of startScenarioStart. -/
theorem fabricated_start_marks_skippable_witness :
    (receiveStartPlay exhaustedRetrySession { id := 14 }
        { success := true, can_skip := true } 21).1.current =
      some { play := { id := 14 }, canSkip := true, started := true, retryCount := 3 } ∧
    (failStartPlay startScenarioStart startScenarioPlay
        { status := 403, errorCode := some 20 } 22).1.current =
      some { play := startScenarioPlay, canSkip := true, started := true, retryCount := 0 } := by
  constructor
  · exact (fabricated_start_marks_skippable.1 exhaustedRetrySession
      { play := { id := 14 }, canSkip := false, started := false, retryCount := 3 } 21
      rfl (by decide)).2.1
  · exact (fabricated_start_marks_skippable.2 startScenarioStart
      { play := startScenarioPlay, canSkip := false, started := false, retryCount := 0 } 22
      rfl).1

/-! Infrastructure for the no-double-play invariant (C1): every step keeps
the count of play-active events equal to the count of play-completed events
plus one exactly when a current play is held. -/

/-- A step from state s to state s1 emitting evs keeps the activation
balance. -/
def balancedStep (s s1 : SessionConfig) (evs : List SEvent) : Prop :=
  countActive evs + currentCount s = countCompleted evs + currentCount s1

theorem countActive_append (a b : List SEvent) :
    countActive (a ++ b) = countActive a + countActive b := by
  induction a with
  | nil => simp [countActive]
  | cons e rest ih =>
    cases e <;> simp [countActive, ih]
    omega

theorem countCompleted_append (a b : List SEvent) :
    countCompleted (a ++ b) = countCompleted a + countCompleted b := by
  induction a with
  | nil => simp [countCompleted]
  | cons e rest ih =>
    cases e <;> simp [countCompleted, ih]
    omega

theorem balancedStep_comp {s s1 s2 : SessionConfig} {e1 e2 : List SEvent} :
    balancedStep s s1 e1 → balancedStep s1 s2 e2 → balancedStep s s2 (e1 ++ e2) := by
  unfold balancedStep
  intro h1 h2
  rw [countActive_append, countCompleted_append]
  omega

theorem countActive_cons_started (p : Play) (l : List SEvent) :
    countActive (SEvent.playStarted p :: l) = countActive l := rfl

theorem countCompleted_cons_started (p : Play) (l : List SEvent) :
    countCompleted (SEvent.playStarted p :: l) = countCompleted l := rfl

theorem assignCurrentPlay_balanced (s : SessionConfig) (play : Option Play) (w : Bool) :
    balancedStep s (assignCurrentPlay s play w).1 (assignCurrentPlay s play w).2 := by
  unfold balancedStep assignCurrentPlay currentCount
  cases hs : s.current <;> cases play <;> cases w <;>
    simp [hs, countActive, countCompleted, countActive_append, countCompleted_append]

theorem requestNextPlay_balanced (s : SessionConfig) (d : Option Nat) (fresh : Nat) :
    balancedStep s (requestNextPlay s d fresh).1 (requestNextPlay s d fresh).2.1 := by
  unfold requestNextPlay
  cases hp : s.pendingRequest
  · simp [balancedStep, countActive, countCompleted, currentCount]
  · by_cases ht : jsTruthy d
    · by_cases hd : 60000 < d.getD 0
      · simp only [ht, hd, Bool.not_true, Bool.false_eq_true, if_false, if_true]
        by_cases hc : s.current.isNone
        · have h := assignCurrentPlay_balanced { s with pendingRequest := none } none false
          simpa [balancedStep, currentCount, hc] using h
        · simp [balancedStep, countActive, countCompleted, currentCount, hc]
      · simp [balancedStep, ht, hd, countActive, countCompleted, currentCount]
    · simp [balancedStep, ht, countActive, countCompleted, currentCount]

theorem receiveStartPlay_balanced (s : SessionConfig) (play : Play) (resp : StartResponse)
    (fresh : Nat) :
    balancedStep s (receiveStartPlay s play resp fresh).1
      (receiveStartPlay s play resp fresh).2.1 := by
  unfold receiveStartPlay
  by_cases hr : resp.success
  · cases hc : s.current with
    | none => simp [balancedStep, hr, countActive, countCompleted, currentCount]
    | some c =>
      by_cases hp : c.play == play
      · simp only [hr, hc, hp, if_true]
        have h := requestNextPlay_balanced
          { s with current := some { c with canSkip := resp.can_skip, started := true } }
          none fresh
        unfold balancedStep at h ⊢
        rw [countActive_cons_started, countCompleted_cons_started]
        have hcs : currentCount s = currentCount
            { s with current := some { c with canSkip := resp.can_skip, started := true } } := by
          simp [currentCount, hc]
        omega
      · simp [balancedStep, hr, hc, hp, countActive, countCompleted, currentCount]
  · simp [balancedStep, hr, countActive, countCompleted, currentCount]

theorem countActive_idTriggers (a b : Option Nat) :
    countActive ((match a with
      | some pid => [SEvent.placementChanged pid]
      | none => []) ++
      (match b with
      | some sid => [SEvent.stationChanged sid]
      | none => [])) = 0 := by
  cases a <;> cases b <;> simp [countActive, countActive_append]

theorem countCompleted_idTriggers (a b : Option Nat) :
    countCompleted ((match a with
      | some pid => [SEvent.placementChanged pid]
      | none => []) ++
      (match b with
      | some sid => [SEvent.stationChanged sid]
      | none => [])) = 0 := by
  cases a <;> cases b <;> simp [countCompleted, countCompleted_append]

theorem tune_balanced (s : SessionConfig) (r : SessionConfig × List SEvent × List NetCall)
    (h : tune s = .ok r) : balancedStep s r.1 r.2.1 := by
  obtain ⟨tok, sec, pid, sid, cur, pr, pp⟩ := s
  unfold tune at h
  split at h
  · simp at h
  · split at h
    · simp at h
    · have h2 := Except.ok.inj h
      subst h2
      dsimp only
      have hb := assignCurrentPlay_balanced ⟨tok, sec, pid, sid, cur, none, none⟩ none true
      have hc1 : currentCount (⟨tok, sec, pid, sid, cur, pr, pp⟩ : SessionConfig) =
          currentCount (⟨tok, sec, pid, sid, cur, none, none⟩ : SessionConfig) := by
        simp [currentCount]
      unfold balancedStep at hb ⊢
      omega

theorem receiveNextPlay_balanced (s : SessionConfig) (ajaxId : Nat) (resp : PlayResponse) :
    balancedStep s (receiveNextPlay s ajaxId resp).1 (receiveNextPlay s ajaxId resp).2 := by
  obtain ⟨tok, sec, pid, sid, cur, pr, pp⟩ := s
  unfold receiveNextPlay
  by_cases hm : pendingMatches ⟨tok, sec, pid, sid, cur, pr, pp⟩ ajaxId
  · simp only [hm, if_true]
    cases resp with
    | success play =>
      cases cur with
      | some c =>
        dsimp only
        simp [balancedStep, countActive, countCompleted, currentCount]
      | none =>
        dsimp only
        have hb := assignCurrentPlay_balanced ⟨tok, sec, pid, sid, none, none, pp⟩ (some play) false
        have hc1 : currentCount (⟨tok, sec, pid, sid, none, pr, pp⟩ : SessionConfig) =
            currentCount (⟨tok, sec, pid, sid, none, none, pp⟩ : SessionConfig) := by
          simp [currentCount]
        unfold balancedStep at hb ⊢
        omega
    | failure errorCode =>
      by_cases he : errorCode == some 9
      · simp only [he, if_true]
        cases cur with
        | some c =>
          dsimp only
          simp [balancedStep, countActive, countCompleted, currentCount]
        | none =>
          dsimp only
          simp [balancedStep, countActive, countCompleted, currentCount]
      · simp [balancedStep, he, countActive, countCompleted, currentCount]
  · simp [balancedStep, hm, countActive, countCompleted, currentCount]

theorem failedNextPlay_balanced (s : SessionConfig) (delay : Option Nat) (ajaxId : Nat)
    (resp : FailResponse) :
    balancedStep s (failedNextPlay s delay ajaxId resp).1
      (failedNextPlay s delay ajaxId resp).2.1 := by
  unfold failedNextPlay
  by_cases hm : pendingMatches s ajaxId
  · by_cases h4 : resp.status == 403 && resp.errorCode == some 19
    · simp [balancedStep, hm, h4, countActive, countCompleted]
    · simp [balancedStep, hm, h4, countActive, countCompleted]
  · simp [balancedStep, hm, countActive, countCompleted]

theorem startPlay_balanced (s : SessionConfig) (play : Play) (fresh : Nat)
    (r : SessionConfig × List SEvent × List NetCall) (h : startPlay s play fresh = .ok r) :
    balancedStep s r.1 r.2.1 := by
  unfold startPlay at h
  cases hc : s.current with
  | none => simp [hc] at h
  | some c =>
    simp only [hc] at h
    by_cases hrc : 2 < c.retryCount
    · simp only [hrc, if_true, Except.ok.injEq] at h
      rw [← h]
      exact receiveStartPlay_balanced s play { success := true, can_skip := true } fresh
    · simp only [hrc, if_false, Except.ok.injEq] at h
      rw [← h]
      simp [balancedStep, countActive, countCompleted]

theorem failStartPlay_balanced (s : SessionConfig) (play : Play) (resp : FailResponse)
    (fresh : Nat) :
    balancedStep s (failStartPlay s play resp fresh).1
      (failStartPlay s play resp fresh).2.1 := by
  unfold failStartPlay
  cases hc : s.current with
  | none => simp [balancedStep, countActive, countCompleted]
  | some c =>
    by_cases hp : c.play == play
    · by_cases h4 : resp.status == 403 && resp.errorCode == some 20
      · simp only [hp, h4, if_true]
        exact receiveStartPlay_balanced s play { success := true, can_skip := true } fresh
      · simp [balancedStep, hp, h4, hc, countActive, countCompleted, currentCount]
    · simp [balancedStep, hp, countActive, countCompleted, currentCount]

theorem receivePlayCompleted_balanced (s : SessionConfig) (r : Bool) :
    balancedStep s (receivePlayCompleted s r).1 (receivePlayCompleted s r).2 := by
  unfold receivePlayCompleted
  by_cases hp : s.pendingRequest.isNone
  · simp only [hp, if_true]
    have hb := assignCurrentPlay_balanced { s with pendingPlay := none } s.pendingPlay false
    have hcs : currentCount s = currentCount { s with pendingPlay := none } := by
      simp [currentCount]
    unfold balancedStep at hb ⊢
    omega
  · simp only [hp, if_false]
    exact assignCurrentPlay_balanced s none true

theorem receiveSkip_balanced (s : SessionConfig) (play : Play) (success : Bool) :
    balancedStep s (receiveSkip s play success).1 (receiveSkip s play success).2 := by
  obtain ⟨tok, sec, pid, sid, cur, pr, pp⟩ := s
  unfold receiveSkip
  by_cases hm : currentMatches ⟨tok, sec, pid, sid, cur, pr, pp⟩ play
  · by_cases hsc : success
    · simp only [hm, hsc, Bool.not_true, Bool.false_eq_true, if_false]
      cases pp with
      | some q =>
        dsimp only
        have hb := assignCurrentPlay_balanced ⟨tok, sec, pid, sid, cur, pr, none⟩ (some q) false
        have hc1 : currentCount (⟨tok, sec, pid, sid, cur, pr, some q⟩ : SessionConfig) =
            currentCount (⟨tok, sec, pid, sid, cur, pr, none⟩ : SessionConfig) := by
          simp [currentCount]
        unfold balancedStep at hb ⊢
        omega
      | none =>
        dsimp only
        by_cases hpr : pr.isSome
        · simp only [hpr, if_true]
          exact assignCurrentPlay_balanced ⟨tok, sec, pid, sid, cur, pr, none⟩ none true
        · simp only [hpr, Bool.false_eq_true, if_false]
          exact assignCurrentPlay_balanced ⟨tok, sec, pid, sid, cur, pr, none⟩ none false
    · simp [balancedStep, hm, hsc, countActive, countCompleted]
  · simp [balancedStep, hm, countActive, countCompleted]

theorem receiveInvalidate_balanced (s : SessionConfig) (play : Play) (success : Bool)
    (fresh : Nat) :
    balancedStep s (receiveInvalidate s play success fresh).1
      (receiveInvalidate s play success fresh).2.1 := by
  obtain ⟨tok, sec, pid, sid, cur, pr, pp⟩ := s
  unfold receiveInvalidate
  by_cases hm : currentMatches ⟨tok, sec, pid, sid, cur, pr, pp⟩ play
  · by_cases hsc : success
    · simp only [hm, hsc, Bool.not_true, Bool.false_eq_true, if_false]
      cases pp with
      | some q =>
        dsimp only
        have hb := assignCurrentPlay_balanced ⟨tok, sec, pid, sid, cur, pr, none⟩ (some q) false
        have hc1 : currentCount (⟨tok, sec, pid, sid, cur, pr, some q⟩ : SessionConfig) =
            currentCount (⟨tok, sec, pid, sid, cur, pr, none⟩ : SessionConfig) := by
          simp [currentCount]
        unfold balancedStep at hb ⊢
        omega
      | none =>
        dsimp only
        have hb := assignCurrentPlay_balanced ⟨tok, sec, pid, sid, cur, pr, none⟩ none true
        by_cases hpr : (assignCurrentPlay ⟨tok, sec, pid, sid, cur, pr, none⟩
            none true).1.pendingRequest.isNone
        · simp only [hpr, if_true]
          have hb2 := requestNextPlay_balanced
            (assignCurrentPlay ⟨tok, sec, pid, sid, cur, pr, none⟩ none true).1 none fresh
          unfold balancedStep at hb hb2 ⊢
          rw [countActive_append, countCompleted_append]
          omega
        · simp only [hpr, Bool.false_eq_true, if_false]
          exact hb
    · simp [balancedStep, hm, hsc, countActive, countCompleted]
  · simp [balancedStep, hm, countActive, countCompleted]

theorem balancedStep_pad (s0 s1 : SessionConfig) (evs0 evs : List SEvent)
    (s2 : SessionConfig) (h0a : countActive evs0 = 0) (h0c : countCompleted evs0 = 0)
    (hcs : currentCount s2 = currentCount s0) (hb : balancedStep s0 s1 evs) :
    balancedStep s2 s1 (evs0 ++ evs) := by
  unfold balancedStep at hb ⊢
  rw [countActive_append, countCompleted_append, h0a, h0c]
  omega

theorem unsuspend_balanced (s : SessionConfig) (saved : SavedState) (fresh : Nat)
    (r : SessionConfig × List SEvent × List NetCall) (h : unsuspend s saved fresh = .ok r) :
    balancedStep s r.1 r.2.1 := by
  obtain ⟨tok, sec, pid, sid, cur, pr, pp⟩ := s
  obtain ⟨spid, ssid, splay, scs⟩ := saved
  unfold unsuspend at h
  split at h
  · simp at h
  · dsimp only at h
    cases splay with
    | some p =>
      dsimp only at h
      have h2 := Except.ok.inj h
      subst h2
      dsimp only
      rw [List.append_assoc]
      refine balancedStep_pad _ _ _ _ _ ?_ ?_ ?_
        (balancedStep_comp (assignCurrentPlay_balanced _ (some p) false)
          (receiveStartPlay_balanced _ p { success := true, can_skip := scs } fresh))
      · cases spid <;> cases ssid <;> simp [countActive, countActive_append]
      · cases spid <;> cases ssid <;> simp [countCompleted, countCompleted_append]
      · simp [currentCount]
    | none =>
      dsimp only at h
      split at h
      · rename_i t htn
        have h2 := Except.ok.inj h
        subst h2
        dsimp only
        refine balancedStep_pad _ _ _ _ _ ?_ ?_ ?_ (tune_balanced _ t htn)
        · cases spid <;> cases ssid <;> simp [countActive, countActive_append]
        · cases spid <;> cases ssid <;> simp [countCompleted, countCompleted_append]
        · simp [currentCount]
      · simp at h

theorem balancedStep_refl (s : SessionConfig) : balancedStep s s [] := by
  simp [balancedStep, countActive, countCompleted]

theorem failSkip_balanced (s : SessionConfig) (play : Play) :
    balancedStep s (failSkip s play).1 (failSkip s play).2 := by
  unfold failSkip
  by_cases hm : currentMatches s play <;>
    simp [balancedStep, hm, countActive, countCompleted]

theorem requestSkip_balanced (s : SessionConfig)
    (r : SessionConfig × List SEvent × List NetCall) (h : requestSkip s = .ok r) :
    balancedStep s r.1 r.2.1 := by
  unfold requestSkip at h
  split at h
  · simp at h
  · split at h
    · simp at h
    · split at h
      · have h2 := Except.ok.inj h
        subst h2
        simp [balancedStep, countActive, countCompleted]
      · have h2 := Except.ok.inj h
        subst h2
        simp [balancedStep, countActive, countCompleted]

theorem reportPlayStarted_balanced (s : SessionConfig) (fresh : Nat)
    (r : SessionConfig × List SEvent × List NetCall) (h : reportPlayStarted s fresh = .ok r) :
    balancedStep s r.1 r.2.1 := by
  unfold reportPlayStarted at h
  split at h
  · simp at h
  · rename_i c hc
    exact startPlay_balanced s c.play fresh r h

theorem likePlay_currentCount (s : SessionConfig) (pid : Nat) :
    currentCount (likePlay s pid).1 = currentCount s := by
  unfold likePlay
  cases hc : s.current with
  | none => simp [currentCount]
  | some c =>
    by_cases hp : c.play.id == pid <;> simp [hc, hp, currentCount]

theorem unlikePlay_currentCount (s : SessionConfig) (pid : Nat) :
    currentCount (unlikePlay s pid).1 = currentCount s := by
  unfold unlikePlay
  cases hc : s.current with
  | none => simp [currentCount]
  | some c =>
    by_cases hp : c.play.id == pid <;> simp [hc, hp, currentCount]

theorem dislikePlay_currentCount (s : SessionConfig) (pid : Nat) :
    currentCount (dislikePlay s pid).1 = currentCount s := by
  unfold dislikePlay
  cases hc : s.current with
  | none => simp [currentCount]
  | some c =>
    by_cases hp : c.play.id == pid <;> simp [hc, hp, currentCount]

theorem stepSession_balanced (i : SessionInput) (s : SessionConfig) :
    balancedStep s (stepSession i s).1 (stepSession i s).2 := by
  cases i with
  | tuneCmd =>
    dsimp only [stepSession]
    cases ht : tune s with
    | ok r => exact tune_balanced s r ht
    | error e => exact balancedStep_refl s
  | nextPlayCmd delay fresh =>
    dsimp only [stepSession]
    exact requestNextPlay_balanced s delay fresh
  | nextPlayResponse a resp =>
    dsimp only [stepSession]
    exact receiveNextPlay_balanced s a resp
  | nextPlayFailure delay a resp =>
    dsimp only [stepSession]
    exact failedNextPlay_balanced s delay a resp
  | startCmd fresh =>
    dsimp only [stepSession]
    cases ht : reportPlayStarted s fresh with
    | ok r => exact reportPlayStarted_balanced s fresh r ht
    | error e => exact balancedStep_refl s
  | startPlayResponse play resp fresh =>
    dsimp only [stepSession]
    exact receiveStartPlay_balanced s play resp fresh
  | startPlayFailure play resp fresh =>
    dsimp only [stepSession]
    exact failStartPlay_balanced s play resp fresh
  | completeCmd =>
    dsimp only [stepSession]
    exact balancedStep_refl s
  | completedResponse success =>
    dsimp only [stepSession]
    exact receivePlayCompleted_balanced s success
  | skipCmd =>
    dsimp only [stepSession]
    cases ht : requestSkip s with
    | ok r => exact requestSkip_balanced s r ht
    | error e => exact balancedStep_refl s
  | skipResponse play success =>
    dsimp only [stepSession]
    exact receiveSkip_balanced s play success
  | skipFailure play =>
    dsimp only [stepSession]
    exact failSkip_balanced s play
  | invalidateCmd =>
    dsimp only [stepSession]
    exact balancedStep_refl s
  | invalidateResponse play success fresh =>
    dsimp only [stepSession]
    exact receiveInvalidate_balanced s play success fresh
  | unsuspendCmd saved fresh =>
    dsimp only [stepSession]
    cases ht : unsuspend s saved fresh with
    | ok r => exact unsuspend_balanced s saved fresh r ht
    | error e => exact balancedStep_refl s
  | likeCmd pid =>
    dsimp only [stepSession]
    have := likePlay_currentCount s pid
    simp [balancedStep, countActive, countCompleted]
    omega
  | unlikeCmd pid =>
    dsimp only [stepSession]
    have := unlikePlay_currentCount s pid
    simp [balancedStep, countActive, countCompleted]
    omega
  | dislikeCmd pid =>
    dsimp only [stepSession]
    have := dislikePlay_currentCount s pid
    simp [balancedStep, countActive, countCompleted]
    omega

theorem runSession_balanced (inputs : List SessionInput) (s : SessionConfig) :
    balancedStep s (runSession inputs s).1 (runSession inputs s).2 := by
  induction inputs generalizing s with
  | nil =>
    dsimp only [runSession]
    exact balancedStep_refl s
  | cons i rest ih =>
    dsimp only [runSession]
    exact balancedStep_comp (stepSession_balanced i s) (ih (stepSession i s).1)

/-! Helper facts for the promotion half of C1: which handlers can consume the
pending play, and that each of those retires the current play as it does so. -/

theorem assignCurrentPlay_pendingPlay (s : SessionConfig) (play : Option Play) (w : Bool) :
    (assignCurrentPlay s play w).1.pendingPlay = s.pendingPlay := by
  unfold assignCurrentPlay
  cases hs : s.current <;> cases play <;> cases w <;> simp

theorem assignCurrentPlay_none_current (s : SessionConfig) (w : Bool) :
    (assignCurrentPlay s none w).1.current = none := by
  unfold assignCurrentPlay
  cases hs : s.current <;> cases w <;> simp [hs]

theorem assignCurrentPlay_completed_mem (s : SessionConfig) (play : Option Play) (w : Bool)
    (c : CurrentPlayRecord) (hc : s.current = some c) :
    SEvent.playCompleted c.play ∈ (assignCurrentPlay s play w).2 := by
  unfold assignCurrentPlay
  cases play <;> cases w <;> simp [hc]

theorem requestNextPlay_pendingPlay (s : SessionConfig) (d : Option Nat) (fresh : Nat) :
    (requestNextPlay s d fresh).1.pendingPlay = s.pendingPlay := by
  unfold requestNextPlay
  cases hp : s.pendingRequest
  · simp
  · by_cases ht : jsTruthy d
    · by_cases hd : 60000 < d.getD 0
      · simp only [ht, hd, Bool.not_true, Bool.false_eq_true, if_false, if_true]
        by_cases hc : s.current.isNone
        · simp only [hc, if_true]
          rw [assignCurrentPlay_pendingPlay]
        · simp [hc]
      · simp [ht, hd]
    · simp [ht]

theorem receiveStartPlay_pendingPlay (s : SessionConfig) (play : Play) (resp : StartResponse)
    (fresh : Nat) :
    (receiveStartPlay s play resp fresh).1.pendingPlay = s.pendingPlay := by
  unfold receiveStartPlay
  by_cases hr : resp.success
  · cases hc : s.current with
    | none => simp [hr]
    | some c =>
      by_cases hp : c.play == play
      · simp only [hr, hp, if_true]
        rw [requestNextPlay_pendingPlay]
      · simp [hr, hp]
  · simp [hr]

theorem startPlay_pendingPlay (s : SessionConfig) (play : Play) (fresh : Nat)
    (r : SessionConfig × List SEvent × List NetCall) (h : startPlay s play fresh = .ok r) :
    r.1.pendingPlay = s.pendingPlay := by
  unfold startPlay at h
  split at h
  · simp at h
  · split at h
    · have h2 := Except.ok.inj h
      subst h2
      exact receiveStartPlay_pendingPlay s play { success := true, can_skip := true } fresh
    · have h2 := Except.ok.inj h
      subst h2
      rfl

theorem failStartPlay_pendingPlay (s : SessionConfig) (play : Play) (resp : FailResponse)
    (fresh : Nat) :
    (failStartPlay s play resp fresh).1.pendingPlay = s.pendingPlay := by
  unfold failStartPlay
  cases hc : s.current with
  | none => simp
  | some c =>
    by_cases hp : c.play == play
    · by_cases h4 : resp.status == 403 && resp.errorCode == some 20
      · simp only [hp, h4, if_true]
        exact receiveStartPlay_pendingPlay s play { success := true, can_skip := true } fresh
      · simp [hp, h4]
    · simp [hp]

theorem failedNextPlay_state (s : SessionConfig) (d : Option Nat) (a : Nat)
    (resp : FailResponse) : (failedNextPlay s d a resp).1 = s := by
  unfold failedNextPlay
  by_cases hm : pendingMatches s a
  · by_cases h4 : resp.status == 403 && resp.errorCode == some 19 <;> simp [hm, h4]
  · simp [hm]

theorem failSkip_state (s : SessionConfig) (play : Play) : (failSkip s play).1 = s := by
  unfold failSkip
  by_cases hm : currentMatches s play <;> simp [hm]

theorem requestSkip_state (s : SessionConfig)
    (r : SessionConfig × List SEvent × List NetCall) (h : requestSkip s = .ok r) :
    r.1 = s := by
  unfold requestSkip at h
  split at h
  · simp at h
  · split at h
    · simp at h
    · split at h
      · have h2 := Except.ok.inj h
        subst h2
        rfl
      · have h2 := Except.ok.inj h
        subst h2
        rfl

theorem tune_current (s : SessionConfig) (r : SessionConfig × List SEvent × List NetCall)
    (h : tune s = .ok r) : r.1.current = none := by
  unfold tune at h
  split at h
  · simp at h
  · split at h
    · simp at h
    · have h2 := Except.ok.inj h
      subst h2
      exact assignCurrentPlay_none_current _ true

theorem likePlay_pendingPlay (s : SessionConfig) (pid : Nat) :
    (likePlay s pid).1.pendingPlay = s.pendingPlay := by
  unfold likePlay
  cases hc : s.current with
  | none => simp
  | some c => by_cases hp : c.play.id == pid <;> simp [hp]

theorem unlikePlay_pendingPlay (s : SessionConfig) (pid : Nat) :
    (unlikePlay s pid).1.pendingPlay = s.pendingPlay := by
  unfold unlikePlay
  cases hc : s.current with
  | none => simp
  | some c => by_cases hp : c.play.id == pid <;> simp [hp]

theorem dislikePlay_pendingPlay (s : SessionConfig) (pid : Nat) :
    (dislikePlay s pid).1.pendingPlay = s.pendingPlay := by
  unfold dislikePlay
  cases hc : s.current with
  | none => simp
  | some c => by_cases hp : c.play.id == pid <;> simp [hp]

theorem receiveNextPlay_cases (s : SessionConfig) (a : Nat) (resp : PlayResponse) :
    (receiveNextPlay s a resp).1.pendingPlay = s.pendingPlay ∨
    (∃ play, (receiveNextPlay s a resp).1.pendingPlay = some play) ∨
    ((receiveNextPlay s a resp).1.current = s.current ∧
      (receiveNextPlay s a resp).1.pendingPlay = none) := by
  unfold receiveNextPlay
  by_cases hm : pendingMatches s a
  · simp only [hm, if_true]
    cases resp with
    | success play =>
      cases hc : s.current with
      | some c => right; left; exact ⟨play, rfl⟩
      | none =>
        left
        rw [assignCurrentPlay_pendingPlay]
    | failure errorCode =>
      by_cases he : errorCode == some 9
      · cases hc : s.current with
        | some c => right; right; simp [he]
        | none => left; simp [he]
      · left; simp [he]
  · left; simp [hm]

theorem receivePlayCompleted_promotion (s : SessionConfig) (r : Bool)
    (c : CurrentPlayRecord) (hc : s.current = some c) :
    SEvent.playCompleted c.play ∈ (receivePlayCompleted s r).2 := by
  unfold receivePlayCompleted
  by_cases hp : s.pendingRequest.isNone
  · simp only [hp, if_true]
    exact assignCurrentPlay_completed_mem _ _ _ c (by simpa using hc)
  · simp only [hp, Bool.false_eq_true, if_false]
    exact assignCurrentPlay_completed_mem _ _ _ c hc

theorem receiveSkip_promotion (s : SessionConfig) (play : Play) (success : Bool)
    (c : CurrentPlayRecord) (hc : s.current = some c)
    (hpp : (receiveSkip s play success).1.pendingPlay ≠ s.pendingPlay ∨
      (receiveSkip s play success).1.current ≠ s.current) :
    SEvent.playCompleted c.play ∈ (receiveSkip s play success).2 := by
  unfold receiveSkip at hpp ⊢
  by_cases hm : currentMatches s play
  · by_cases hsc : success
    · simp only [hm, hsc, Bool.not_true, Bool.false_eq_true, if_false] at hpp ⊢
      cases hq : s.pendingPlay with
      | some q =>
        exact assignCurrentPlay_completed_mem _ _ _ c (by simpa using hc)
      | none =>
        by_cases hpr : s.pendingRequest.isSome
        · simp only [hpr, if_true] at hpp ⊢
          exact assignCurrentPlay_completed_mem _ _ _ c hc
        · simp only [hpr, Bool.false_eq_true, if_false] at hpp ⊢
          exact assignCurrentPlay_completed_mem _ _ _ c hc
    · simp only [hm, hsc] at hpp
      simp at hpp
  · simp only [hm] at hpp
    simp at hpp

theorem receiveInvalidate_promotion (s : SessionConfig) (play : Play) (success : Bool)
    (fresh : Nat) (c : CurrentPlayRecord) (hc : s.current = some c)
    (hch : (receiveInvalidate s play success fresh).1.pendingPlay ≠ s.pendingPlay ∨
      (receiveInvalidate s play success fresh).1.current ≠ s.current) :
    SEvent.playCompleted c.play ∈ (receiveInvalidate s play success fresh).2.1 := by
  unfold receiveInvalidate at hch ⊢
  by_cases hm : currentMatches s play
  · by_cases hsc : success
    · simp only [hm, hsc, Bool.not_true, Bool.false_eq_true, if_false] at hch ⊢
      cases hq : s.pendingPlay with
      | some q =>
        exact assignCurrentPlay_completed_mem _ _ _ c (by simpa using hc)
      | none =>
        by_cases hpr : (assignCurrentPlay s none true).1.pendingRequest.isNone
        · simp only [hpr, if_true] at hch ⊢
          refine List.mem_append.mpr (Or.inl ?_)
          exact assignCurrentPlay_completed_mem _ _ _ c hc
        · simp only [hpr, Bool.false_eq_true, if_false] at hch ⊢
          exact assignCurrentPlay_completed_mem _ _ _ c hc
    · simp only [hm, hsc] at hch
      simp at hch
  · simp only [hm] at hch
    simp at hch

theorem unsuspend_pendingPlay (s : SessionConfig) (saved : SavedState) (fresh : Nat)
    (r : SessionConfig × List SEvent × List NetCall) (h : unsuspend s saved fresh = .ok r) :
    r.1.pendingPlay = s.pendingPlay ∨ r.1.current = none := by
  obtain ⟨tok, sec, pid, sid, cur, pr, pp⟩ := s
  obtain ⟨spid, ssid, splay, scs⟩ := saved
  unfold unsuspend at h
  split at h
  · simp at h
  · dsimp only at h
    cases splay with
    | some p =>
      dsimp only at h
      have h2 := Except.ok.inj h
      subst h2
      left
      dsimp only
      rw [receiveStartPlay_pendingPlay, assignCurrentPlay_pendingPlay]
    | none =>
      dsimp only at h
      split at h
      · rename_i t htn
        have h2 := Except.ok.inj h
        subst h2
        right
        dsimp only
        exact tune_current _ t htn
      · simp at h

/-- The promotion half of C1: in any single step whose effect consumes the
queued pending play into the current slot, the previously current play (when
one existed) is retired in that very step, witnessed by its play-completed
event; the distinctness hypothesis models that the queued play object is not
the very object currently playing. -/
theorem promotion_only_on_retirement (s : SessionConfig) (i : SessionInput)
    (hdist : ∀ (c : CurrentPlayRecord) (p : Play),
      s.current = some c → s.pendingPlay = some p → c.play ≠ p)
    (hprom : promotedPendingPlay s (stepSession i s).1) :
    s.current = none ∨
      ∃ c, s.current = some c ∧ SEvent.playCompleted c.play ∈ (stepSession i s).2 := by
  obtain ⟨p, hp1, hp2, c1, hc1, hc2⟩ := hprom
  cases i with
  | tuneCmd =>
    dsimp only [stepSession] at hp2 hc1
    cases ht : tune s with
    | ok r =>
      rw [ht] at hc1
      rw [tune_current s r ht] at hc1
      exact absurd hc1 (by simp)
    | error e =>
      rw [ht] at hp2
      rw [hp1] at hp2
      exact absurd hp2 (by simp)
  | nextPlayCmd delay fresh =>
    dsimp only [stepSession] at hp2
    rw [requestNextPlay_pendingPlay, hp1] at hp2
    exact absurd hp2 (by simp)
  | nextPlayResponse a resp =>
    dsimp only [stepSession] at hp2 hc1
    rcases receiveNextPlay_cases s a resp with hcase | ⟨play, hcase⟩ | ⟨hcur, _⟩
    · rw [hcase, hp1] at hp2
      exact absurd hp2 (by simp)
    · rw [hcase] at hp2
      exact absurd hp2 (by simp)
    · rw [hcur] at hc1
      exact absurd hc2 (hdist c1 p hc1 hp1)
  | nextPlayFailure delay a resp =>
    dsimp only [stepSession] at hp2
    rw [failedNextPlay_state, hp1] at hp2
    exact absurd hp2 (by simp)
  | startCmd fresh =>
    dsimp only [stepSession] at hp2
    cases ht : reportPlayStarted s fresh with
    | ok r =>
      rw [ht] at hp2
      unfold reportPlayStarted at ht
      cases hc : s.current with
      | none => rw [hc] at ht; simp at ht
      | some c =>
        rw [hc] at ht
        rw [startPlay_pendingPlay s c.play fresh r ht, hp1] at hp2
        exact absurd hp2 (by simp)
    | error e =>
      rw [ht] at hp2
      rw [hp1] at hp2
      exact absurd hp2 (by simp)
  | startPlayResponse play resp fresh =>
    dsimp only [stepSession] at hp2
    rw [receiveStartPlay_pendingPlay, hp1] at hp2
    exact absurd hp2 (by simp)
  | startPlayFailure play resp fresh =>
    dsimp only [stepSession] at hp2
    rw [failStartPlay_pendingPlay, hp1] at hp2
    exact absurd hp2 (by simp)
  | completeCmd =>
    dsimp only [stepSession] at hp2
    rw [hp1] at hp2
    exact absurd hp2 (by simp)
  | completedResponse success =>
    cases hc : s.current with
    | none => exact Or.inl rfl
    | some c =>
      refine Or.inr ⟨c, rfl, ?_⟩
      dsimp only [stepSession]
      exact receivePlayCompleted_promotion s success c hc
  | skipCmd =>
    dsimp only [stepSession] at hp2
    cases ht : requestSkip s with
    | ok r =>
      rw [ht] at hp2
      rw [requestSkip_state s r ht, hp1] at hp2
      exact absurd hp2 (by simp)
    | error e =>
      rw [ht] at hp2
      rw [hp1] at hp2
      exact absurd hp2 (by simp)
  | skipResponse play success =>
    cases hc : s.current with
    | none => exact Or.inl rfl
    | some c =>
      refine Or.inr ⟨c, rfl, ?_⟩
      dsimp only [stepSession] at hp2 ⊢
      refine receiveSkip_promotion s play success c hc (Or.inl ?_)
      rw [hp2, hp1]
      simp
  | skipFailure play =>
    dsimp only [stepSession] at hp2
    rw [failSkip_state, hp1] at hp2
    exact absurd hp2 (by simp)
  | invalidateCmd =>
    dsimp only [stepSession] at hp2
    rw [hp1] at hp2
    exact absurd hp2 (by simp)
  | invalidateResponse play success fresh =>
    cases hc : s.current with
    | none => exact Or.inl rfl
    | some c =>
      refine Or.inr ⟨c, rfl, ?_⟩
      dsimp only [stepSession] at hp2 ⊢
      refine receiveInvalidate_promotion s play success fresh c hc (Or.inl ?_)
      rw [hp2, hp1]
      simp
  | unsuspendCmd saved fresh =>
    dsimp only [stepSession] at hp2 hc1
    cases ht : unsuspend s saved fresh with
    | ok r =>
      rw [ht] at hp2 hc1
      rcases unsuspend_pendingPlay s saved fresh r ht with hk | hk
      · rw [hk, hp1] at hp2
        exact absurd hp2 (by simp)
      · rw [hk] at hc1
        exact absurd hc1 (by simp)
    | error e =>
      rw [ht] at hp2
      rw [hp1] at hp2
      exact absurd hp2 (by simp)
  | likeCmd pid =>
    dsimp only [stepSession] at hp2
    rw [likePlay_pendingPlay, hp1] at hp2
    exact absurd hp2 (by simp)
  | unlikeCmd pid =>
    dsimp only [stepSession] at hp2
    rw [unlikePlay_pendingPlay, hp1] at hp2
    exact absurd hp2 (by simp)
  | dislikeCmd pid =>
    dsimp only [stepSession] at hp2
    rw [dislikePlay_pendingPlay, hp1] at hp2
    exact absurd hp2 (by simp)

/-- C1: over every run of session inputs from the initial configuration, the
play-active events outnumber the play-completed events by exactly the held
current play (zero or one), so two plays are never simultaneously current; a
pending play is consumed into the current slot only in a step that retires
the current play (its play-completed event fires in that same step), given
that the queued play object is distinct from the currently playing one; and
the player installs exactly one fresh binding when a play becomes active. -/
theorem no_double_play_invariant :
    (∀ inputs : List SessionInput,
      countActive (runSession inputs initialSession).2 =
        countCompleted (runSession inputs initialSession).2 +
        currentCount (runSession inputs initialSession).1 ∧
      currentCount (runSession inputs initialSession).1 ≤ 1) ∧
    (∀ (s : SessionConfig) (i : SessionInput),
      (∀ (c : CurrentPlayRecord) (p : Play),
        s.current = some c → s.pendingPlay = some p → c.play ≠ p) →
      promotedPendingPlay s (stepSession i s).1 →
      s.current = none ∨
        ∃ c, s.current = some c ∧ SEvent.playCompleted c.play ∈ (stepSession i s).2) ∧
    (∀ (st : PlayerState) (play : Play),
      (onPlayActive st play).1.activePlay =
        some { id := play.id, startReportedToServer := false, soundCompleted := false,
               soundCompletedWithError := false, playStarted := false,
               previousPosition := 0 }) := by
  refine ⟨?_, promotion_only_on_retirement, ?_⟩
  · intro inputs
    have hb := runSession_balanced inputs initialSession
    unfold balancedStep at hb
    have h0 : currentCount initialSession = 0 := rfl
    constructor
    · omega
    · unfold currentCount
      split <;> omega
  · intro st play
    unfold onPlayActive
    by_cases hp : st.paused <;> simp [hp]

/-- Closed witness for C1: the empty run balances, promoting the queued play
on completion of the distinct current play emits that play-completed event,
and activating a play installs the fresh binding. -/
theorem no_double_play_invariant_witness :
    (countActive (runSession [] initialSession).2 =
      countCompleted (runSession [] initialSession).2 +
      currentCount (runSession [] initialSession).1 ∧
     currentCount (runSession [] initialSession).1 ≤ 1) ∧
    (completeScenarioSession.current = none ∨
      ∃ c, completeScenarioSession.current = some c ∧
        SEvent.playCompleted c.play ∈
          (stepSession (SessionInput.completedResponse true) completeScenarioSession).2) ∧
    (onPlayActive noPlayPlayer { id := 3 }).1.activePlay =
      some { id := 3, startReportedToServer := false, soundCompleted := false,
             soundCompletedWithError := false, playStarted := false,
             previousPosition := 0 } := by
  refine ⟨no_double_play_invariant.1 [], ?_,
    no_double_play_invariant.2.2 noPlayPlayer { id := 3 }⟩
  refine no_double_play_invariant.2.1 completeScenarioSession
    (SessionInput.completedResponse true) ?_ ?_
  · intro c p hc hp
    have hc0 : completeScenarioSession.current =
        some { play := { id := 12 }, canSkip := false, started := true, retryCount := 0 } := rfl
    have hp0 : completeScenarioSession.pendingPlay = some { id := 13 } := rfl
    rw [hc0] at hc
    rw [hp0] at hp
    have hc1 := Option.some.inj hc
    have hp1 := Option.some.inj hp
    rw [← hc1, ← hp1]
    decide
  · refine ⟨{ id := 13 }, rfl, by decide,
      ⟨{ play := { id := 13 }, canSkip := false, started := false, retryCount := 0 },
        by decide, by decide⟩⟩

/-! Supporting lemmas for the suspend and unsuspend round trip (C8). -/

theorem assignCurrentPlay_active_mem (s : SessionConfig) (p : Play) (w : Bool) :
    SEvent.playActive p ∈ (assignCurrentPlay s (some p) w).2 := by
  unfold assignCurrentPlay
  cases hs : s.current <;> cases w <;> simp

theorem requestNextPlay_current (s : SessionConfig) (d : Option Nat) (fresh : Nat) :
    (requestNextPlay s d fresh).1.current = s.current := by
  unfold requestNextPlay
  cases hp : s.pendingRequest
  · simp
  · by_cases ht : jsTruthy d
    · by_cases hd : 60000 < d.getD 0
      · simp only [ht, hd, Bool.not_true, Bool.false_eq_true, if_false, if_true]
        by_cases hcn : s.current.isNone
        · simp only [hcn, if_true]
          rw [assignCurrentPlay_none_current]
          exact (Option.isNone_iff_eq_none.mp hcn).symm
        · simp [hcn]
      · simp [ht, hd]
    · simp [ht]

theorem receiveStartPlay_started_mem (s : SessionConfig) (c : CurrentPlayRecord)
    (resp : StartResponse) (fresh : Nat) (hc : s.current = some c)
    (hr : resp.success = true) :
    SEvent.playStarted c.play ∈ (receiveStartPlay s c.play resp fresh).2.1 := by
  unfold receiveStartPlay
  simp [hr, hc]

theorem receiveStartPlay_current (s : SessionConfig) (c : CurrentPlayRecord)
    (resp : StartResponse) (fresh : Nat) (hc : s.current = some c)
    (hr : resp.success = true) :
    (receiveStartPlay s c.play resp fresh).1.current =
      some { c with canSkip := resp.can_skip, started := true } := by
  unfold receiveStartPlay
  simp only [hr, hc, beq_self_eq_true, if_true]
  rw [requestNextPlay_current]

/-- C8: suspending a started play at position P and unsuspending the saved
state into a fresh session re-emits play-active and play-started for the
same play (same id, position P attached) with the same canSkip recorded on
the restored current play, and the player passes P as the startPosition when
it creates the sound for that play. -/
theorem suspend_unsuspend_roundtrip :
    ∀ (s s2 : SessionConfig) (c : CurrentPlayRecord) (P fresh : Nat) (pst : PlayerState),
      s.current = some c → c.started = true → s2.current = none → P ≠ 0 →
      ∃ r, unsuspend s2 (suspend s P) fresh = .ok r ∧
        SEvent.playActive { c.play with startPosition := P } ∈ r.2.1 ∧
        SEvent.playStarted { c.play with startPosition := P } ∈ r.2.1 ∧
        r.1.current = some { play := { c.play with startPosition := P },
                             canSkip := c.canSkip, started := true, retryCount := 0 } ∧
        (onPlayActive pst { c.play with startPosition := P }).2.head? =
          some (SpeakerCall.create c.play.id (some P)) := by
  intro s s2 c P fresh pst hc hst h2 hP
  have hsaved : suspend s P =
      { placementId := s.placementId, stationId := s.stationId,
        play := some { c.play with startPosition := P }, canSkip := c.canSkip } := by
    unfold suspend
    rw [hc]
    simp [hst]
  have hga : getActivePlay s2 = none := by
    unfold getActivePlay
    rw [h2]
  rw [hsaved]
  unfold unsuspend
  simp only [hga, Option.isSome_none, Bool.false_eq_true, if_false]
  refine ⟨_, rfl, ?_, ?_, ?_, ?_⟩
  · dsimp only
    refine List.mem_append.mpr (Or.inl (List.mem_append.mpr (Or.inr ?_)))
    exact assignCurrentPlay_active_mem _ _ false
  · dsimp only
    refine List.mem_append.mpr (Or.inr ?_)
    have hcur : (assignCurrentPlay
        { s2 with
            placementId := match s.placementId with
              | some pid => some pid
              | none => s2.placementId,
            stationId := match s.stationId with
              | some sid => some sid
              | none => s2.stationId }
        (some { c.play with startPosition := P }) false).1.current =
        some { play := { c.play with startPosition := P }, canSkip := false,
               started := false, retryCount := 0 } := by
      unfold assignCurrentPlay
      simp [h2]
    exact receiveStartPlay_started_mem _
      { play := { c.play with startPosition := P }, canSkip := false,
        started := false, retryCount := 0 }
      { success := true, can_skip := c.canSkip } fresh hcur rfl
  · dsimp only
    have hcur : (assignCurrentPlay
        { s2 with
            placementId := match s.placementId with
              | some pid => some pid
              | none => s2.placementId,
            stationId := match s.stationId with
              | some sid => some sid
              | none => s2.stationId }
        (some { c.play with startPosition := P }) false).1.current =
        some { play := { c.play with startPosition := P }, canSkip := false,
               started := false, retryCount := 0 } := by
      unfold assignCurrentPlay
      simp [h2]
    exact receiveStartPlay_current _
      { play := { c.play with startPosition := P }, canSkip := false,
        started := false, retryCount := 0 }
      { success := true, can_skip := c.canSkip } fresh hcur rfl
  · unfold onPlayActive
    by_cases hp : pst.paused <;> simp [hp, hP]

/-- A started session whose current play (id 33) is skippable, used for the
suspend and unsuspend witness. -/
def suspendScenarioSession : SessionConfig :=
  { placementId := some 2, stationId := some 4,
    current := some { play := { id := 33 }, canSkip := true, started := true,
                      retryCount := 0 } }

/-- Closed witness for C8: suspend at 45000 ms and unsuspend into the initial
session restores play 33 started with canSkip true, and the sound is created
at start position 45000. -/
theorem suspend_unsuspend_roundtrip_witness :
    ∃ r, unsuspend initialSession (suspend suspendScenarioSession 45000) 17 = .ok r ∧
      SEvent.playActive { id := 33, startPosition := 45000 } ∈ r.2.1 ∧
      SEvent.playStarted { id := 33, startPosition := 45000 } ∈ r.2.1 ∧
      r.1.current = some { play := { id := 33, startPosition := 45000 },
                           canSkip := true, started := true, retryCount := 0 } ∧
      (onPlayActive noPlayPlayer { id := 33, startPosition := 45000 }).2.head? =
        some (SpeakerCall.create 33 (some 45000)) := by
  exact suspend_unsuspend_roundtrip suspendScenarioSession initialSession
    { play := { id := 33 }, canSkip := true, started := true, retryCount := 0 }
    45000 17 noPlayPlayer rfl rfl rfl (by decide)

end Feed




